import Mathlib

/-!
Verification of the provider-fallback and caching subsystem of the
ai-hedge-fund repository.

The development shallowly embeds `src/data/enhanced_cache.py`
(`CacheEntry`, `ProviderAwareCache`) and `src/data/provider_manager.py`
(`ProviderHealth`, `DataProviderManager`) into Lean.  Wall-clock time is
modelled as a rational number of seconds (`now : ℚ`); Python `datetime`
arithmetic becomes rational arithmetic, and the float literal `0.8`
is modelled as the rational `4/5`.  Provider calls are modelled by a
behaviour function `behave : String → ProvResult α`; each call either
returns a value or raises one of the error kinds of the source's error
taxonomy.  The mutable per-provider health table becomes a function
`String → ProviderHealth` threaded through the operations, and the cache
dictionary becomes an association list keyed by cache-key strings.
-/

namespace HedgeFund

/-! ## enhanced_cache.py -/

/-- Embeds `CacheEntryStatus` (enhanced_cache.py lines 19-23). -/
inductive CacheEntryStatus
  | fresh
  | stale
  | expired
deriving DecidableEq, Repr

/-- Embeds the `CacheEntry` dataclass (enhanced_cache.py lines 26-34).
`timestamp` and `ttl_seconds` are in seconds; `ttl_seconds` is an `int`
in the source, carried here as a rational to keep the age arithmetic
uniform. -/
structure CacheEntry (α : Type) where
  data : α
  provider : String
  timestamp : ℚ
  cache_key : String
  data_type : String
  ttl_seconds : ℚ
deriving DecidableEq

/-- Embeds `CacheEntry.age` (lines 36-39): `datetime.now() - self.timestamp`
in seconds, with `now` passed explicitly. -/
def CacheEntry.age (e : CacheEntry α) (now : ℚ) : ℚ :=
  now - e.timestamp

/-- Embeds `CacheEntry.status` (lines 41-50): Fresh below 80% of the TTL,
Stale between 80% and 100%, Expired from the TTL on. -/
def CacheEntry.status (e : CacheEntry α) (now : ℚ) : CacheEntryStatus :=
  if e.age now < e.ttl_seconds * (4 / 5) then CacheEntryStatus.fresh
  else if e.age now < e.ttl_seconds then CacheEntryStatus.stale
  else CacheEntryStatus.expired

/-- Embeds `CacheEntry.is_valid` (lines 52-55). -/
def CacheEntry.is_valid (e : CacheEntry α) (now : ℚ) : Bool :=
  decide (e.status now ≠ CacheEntryStatus.expired)

/-- The cache dictionary `self._cache` of `ProviderAwareCache`, as an
association list from cache keys to entries (kept duplicate-free by
`insertEntry`). -/
def Cache (α : Type) : Type := List (String × CacheEntry α)

/-- Dictionary deletion `del self._cache[key]`. -/
def eraseKey (key : String) (c : Cache α) : Cache α :=
  c.filter fun kv => kv.1 ≠ key

/-- Dictionary assignment `self._cache[cache_key] = entry`. -/
def insertEntry (key : String) (e : CacheEntry α) (c : Cache α) : Cache α :=
  (key, e) :: eraseKey key c

/-- Dictionary lookup `self._cache[cache_key]` / `cache_key in self._cache`. -/
def lookupEntry (key : String) (c : Cache α) : Option (CacheEntry α) :=
  List.lookup key c

/-- Embeds the TTL table `self._ttl_config` together with the
`_get_ttl` default of 3600 (enhanced_cache.py lines 67-76 and 96-98). -/
def ttl_config (data_type : String) : ℚ :=
  if data_type = "prices" then 300
  else if data_type = "financial_metrics" then 3600
  else if data_type = "company_news" then 1800
  else if data_type = "insider_trades" then 7200
  else if data_type = "line_items" then 3600
  else if data_type = "company_facts" then 86400
  else if data_type = "market_cap" then 1800
  else 3600

/-- Embeds the provider preference table `self._provider_scores`
(enhanced_cache.py lines 79-83), with the `.get(provider, 0)` default. -/
def provider_scores (p : String) : ℕ :=
  if p = "yahoo" then 10
  else if p = "stooq" then 8
  else if p = "financialdatasets" then 9
  else 0

/-- Embeds `ProviderAwareCache.get` (enhanced_cache.py lines 100-124):
returns the hit (payload, provider, status) or `none`, together with the
cache after the access (an expired entry is deleted by the access). -/
def cacheGet (c : Cache α) (key : String) (now : ℚ) :
    Option (α × String × CacheEntryStatus) × Cache α :=
  match lookupEntry key c with
  | none => (none, c)
  | some e =>
      if e.is_valid now then (some (e.data, e.provider, e.status now), c)
      else (none, eraseKey key c)

/-- Embeds `ProviderAwareCache.set` (enhanced_cache.py lines 126-166).
`scores` stands for the instance's `self._provider_scores.get (· ) 0`
table (instantiated with `provider_scores` for the shipped configuration);
the entry is kept when the existing one is Fresh and the incoming
provider does not strictly outrank it. -/
def cacheSet (scores : String → ℕ) (c : Cache α) (key : String)
    (data_type : String) (d : α) (provider : String) (ttl now : ℚ) : Cache α :=
  let entry : CacheEntry α :=
    { data := d, provider := provider, timestamp := now,
      cache_key := key, data_type := data_type, ttl_seconds := ttl }
  match lookupEntry key c with
  | some existing =>
      if existing.status now = CacheEntryStatus.fresh ∧
          scores provider ≤ scores existing.provider
      then c
      else insertEntry key entry c
  | none => insertEntry key entry c

/-! ### Cache key derivation

`_generate_cache_key` (enhanced_cache.py lines 85-94) builds a canonical
structure `(data_type, args, sorted kwargs)`, serialises it with
`json.dumps(..., sort_keys=True)` and MD5-hashes the string.  MD5 is a
fixed deterministic function of its input string, so every key-equality
statement reduces to equality of the canonical serialisation; the
embedding therefore uses the canonical serialisation itself as the key.
Keyword arguments are `(name, value)` pairs; `sorted(kwargs.items())`
sorts them lexicographically, modelled with the lexicographic order on
`Lex (String × String)`. -/

/-- A keyword argument `(name, value)`, ordered lexicographically as
Python's `sorted(kwargs.items())` orders tuples. -/
abbrev KwArg : Type := Lex (String × String)

/-- `sorted(kwargs.items())` (enhanced_cache.py line 91). -/
def sortKwargs (l : List KwArg) : List KwArg :=
  List.insertionSort (fun a b => a ≤ b) l

/-- Serialisation of the sorted keyword-argument list inside the
canonical JSON string. -/
def serializeKwargs (l : List KwArg) : String :=
  String.intercalate "," (l.map fun p => (ofLex p).1 ++ "=" ++ (ofLex p).2)

/-- Embeds `ProviderAwareCache._generate_cache_key` (lines 85-94): the
canonical string determined by data type, positional args and sorted
keyword args (MD5 of this string in the source, see above). -/
def generate_cache_key (data_type : String) (args : List String)
    (kwargs : List KwArg) : String :=
  data_type ++ "|" ++ String.intercalate "," args ++ "|" ++
    serializeKwargs (sortKwargs kwargs)

/-- Embeds the key used by `search_line_items_cached` / `set_line_items`
(enhanced_cache.py lines 254-279): the requested line items are sorted
(`tuple(sorted(line_items))`) before entering the key. -/
def line_items_cache_key (ticker : String) (line_items : List String)
    (end_date period : String) (limit : ℕ) : String :=
  generate_cache_key "line_items"
    [ticker,
     String.intercalate "," (List.insertionSort (fun a b => a ≤ b) line_items),
     end_date, period, toString limit] []

/-! ## provider_manager.py -/

/-- Embeds the `ProviderHealth` dataclass (provider_manager.py
lines 41-49).  Timestamps are rational seconds. -/
structure ProviderHealth where
  is_healthy : Bool := true
  failure_count : ℕ := 0
  last_failure_time : Option ℚ := none
  circuit_open_until : Option ℚ := none
  total_requests : ℕ := 0
  successful_requests : ℕ := 0
deriving DecidableEq, Repr

/-- A freshly initialised health record (`ProviderHealth()`). -/
def ProviderHealth.init : ProviderHealth := {}

/-- `self.failure_threshold = 3` (provider_manager.py line 87). -/
def failure_threshold : ℕ := 3

/-- `self.circuit_timeout = timedelta(minutes=5)` (line 88), in seconds. -/
def circuit_timeout : ℚ := 300

/-- `self.success_threshold = 2` (line 89). -/
def success_threshold : ℤ := 2

/-- The `'prices'` row of `self.provider_priorities` (lines 93-97),
names in configured order. -/
def prices_priorities : List String := ["yahoo", "stooq", "financialdatasets"]

/-- Embeds `DataProviderManager._is_circuit_open` (lines 125-130). -/
def is_circuit_open (h : ProviderHealth) (now : ℚ) : Bool :=
  match h.circuit_open_until with
  | some t => decide (now < t)
  | none => false

/-- Embeds `DataProviderManager._open_circuit` (lines 132-137). -/
def open_circuit (h : ProviderHealth) (now : ℚ) : ProviderHealth :=
  { h with circuit_open_until := some (now + circuit_timeout),
           is_healthy := false }

/-- Embeds `DataProviderManager._close_circuit` (lines 139-145). -/
def close_circuit (h : ProviderHealth) : ProviderHealth :=
  { h with circuit_open_until := none, failure_count := 0, is_healthy := true }

/-- Embeds `DataProviderManager._record_success` (lines 147-157).  After
incrementing the counters, when a cooldown timestamp is set the code
computes `consecutive_successes = successful_requests -
(total_requests - successful_requests)` (a signed quantity) and closes
the circuit when it reaches `success_threshold`. -/
def record_success (h : ProviderHealth) : ProviderHealth :=
  let h1 := { h with total_requests := h.total_requests + 1,
                     successful_requests := h.successful_requests + 1 }
  match h1.circuit_open_until with
  | some _ =>
      if success_threshold ≤
          (h1.successful_requests : ℤ) -
            ((h1.total_requests : ℤ) - (h1.successful_requests : ℤ))
      then close_circuit h1 else h1
  | none => h1

/-- Embeds `DataProviderManager._record_failure` (lines 159-173)
restricted to the manager-level health record (the call to the provider
object's own `mark_unhealthy` mirror is outside this record). -/
def record_failure (h : ProviderHealth) (now : ℚ) : ProviderHealth :=
  let h1 := { h with total_requests := h.total_requests + 1,
                     failure_count := h.failure_count + 1,
                     last_failure_time := some now }
  if failure_threshold ≤ h1.failure_count ∧ h1.circuit_open_until = none
  then open_circuit h1 now else h1

/-- Embeds `DataProviderManager._get_available_providers` (lines 175-197):
the configured priority list filtered by circuit-breaker state and by
the provider's capability query. -/
def get_available_providers (priorities : List String)
    (healths : String → ProviderHealth) (supports : String → Bool)
    (now : ℚ) : List String :=
  priorities.filter fun p => !(is_circuit_open (healths p) now) && supports p

/-- One entry of the `get_provider_health_status` snapshot
(lines 398-414), restricted to the fields the manager's own health
record determines. -/
structure HealthSnapshot where
  healthy : Bool
  circuit_open : Bool
  failure_count : ℕ
  total_requests : ℕ
  successful_requests : ℕ
deriving DecidableEq, Repr

/-- Embeds the per-provider body of
`DataProviderManager.get_provider_health_status` (lines 398-414). -/
def provider_health_status (h : ProviderHealth) (now : ℚ) : HealthSnapshot :=
  { healthy := h.is_healthy,
    circuit_open := is_circuit_open h now,
    failure_count := h.failure_count,
    total_requests := h.total_requests,
    successful_requests := h.successful_requests }

/-- The error taxonomy observed by `_execute_with_fallback`:
`DataProviderRateLimitError`, `DataProviderNotFoundError`, and every
other exception (timeouts included) which the generic handler catches. -/
inductive ProvError
  | rateLimited
  | notFound
  | generic
deriving DecidableEq, Repr

/-- Outcome of invoking one provider's fetch operation. -/
inductive ProvResult (α : Type)
  | ok (v : α)
  | err (e : ProvError)

/-- A manager-level error raised by `_execute_with_fallback`:
`"No available providers"` (line 238) or `"All providers failed ...
Last error: ..."` (line 292), the latter carrying the last underlying
provider error. -/
inductive MgrError
  | noProviders
  | allFailed (last : Option ProvError)
deriving DecidableEq, Repr

/-- The mutable state `_execute_with_fallback` reads and writes: the
per-provider health table and the shared cache. -/
structure ExecState (α : Type) where
  healths : String → ProviderHealth
  cache : Cache α

/-- Pointwise update of the health table (mutation of
`self.provider_health[name]`). -/
def updateHealth (hs : String → ProviderHealth) (p : String)
    (f : ProviderHealth → ProviderHealth) : String → ProviderHealth :=
  Function.update hs p (f (hs p))

/-- Embeds the provider loop of `_execute_with_fallback`
(provider_manager.py lines 240-284): candidates are attempted in order;
a success writes through to the cache, records a success and returns
immediately; a rate-limit or generic failure records a failure and
continues; a not-found result records nothing and continues; `lastErr`
tracks `last_error`. -/
def tryProviders (behave : String → ProvResult α) (scores : String → ℕ)
    (data_type key : String) (ttl now : ℚ) :
    List String → ExecState α → Option ProvError →
    Except (Option ProvError) (α × String) × ExecState α
  | [], st, lastErr => (Except.error lastErr, st)
  | p :: rest, st, _lastErr =>
      match behave p with
      | ProvResult.ok v =>
          (Except.ok (v, p),
           { healths := updateHealth st.healths p record_success,
             cache := cacheSet scores st.cache key data_type v p ttl now })
      | ProvResult.err ProvError.notFound =>
          tryProviders behave scores data_type key ttl now rest st
            (some ProvError.notFound)
      | ProvResult.err e =>
          tryProviders behave scores data_type key ttl now rest
            { st with
              healths := updateHealth st.healths p (fun h => record_failure h now) }
            (some e)

/-- The `stale_data` capture of `_execute_with_fallback` (line 228): a
non-fresh cache hit is remembered as the stale fallback. -/
def staleOf : Option (α × String × CacheEntryStatus) → Option (α × String)
  | some (d, p, CacheEntryStatus.stale) => some (d, p)
  | _ => none

/-- The part of `_execute_with_fallback` after the cache check
(lines 232-292): build candidates, degrade to stale data when the list
is empty, otherwise run the provider loop and degrade to stale data or
raise when it exhausts. -/
def fallbackPhase (behave : String → ProvResult α) (scores : String → ℕ)
    (supports : String → Bool) (priorities : List String)
    (data_type key : String) (ttl now : ℚ)
    (staleData : Option (α × String)) (st1 : ExecState α) :
    Except MgrError (α × String) × ExecState α :=
  match get_available_providers priorities st1.healths supports now with
  | [] =>
      match staleData with
      | some sd => (Except.ok sd, st1)
      | none => (Except.error MgrError.noProviders, st1)
  | c :: cs =>
      match tryProviders behave scores data_type key ttl now (c :: cs) st1 none with
      | (Except.ok r, st2) => (Except.ok r, st2)
      | (Except.error last, st2) =>
          match staleData with
          | some sd => (Except.ok sd, st2)
          | none => (Except.error (MgrError.allFailed last), st2)

/-- Embeds `DataProviderManager._execute_with_fallback`
(provider_manager.py lines 199-292) for one data type.  `key` is the
cache key `_generate_cache_key` derives from the call's arguments (the
same key for the lookup and the write-through, since the arguments are
the same); a fresh cache hit returns immediately with no provider
invoked. -/
def execute_with_fallback (behave : String → ProvResult α)
    (scores : String → ℕ) (supports : String → Bool)
    (priorities : List String) (data_type key : String) (ttl now : ℚ)
    (st : ExecState α) : Except MgrError (α × String) × ExecState α :=
  let looked := cacheGet st.cache key now
  let st1 : ExecState α := { healths := st.healths, cache := looked.2 }
  match looked.1 with
  | some (d, p, CacheEntryStatus.fresh) => (Except.ok (d, p), st1)
  | cres => fallbackPhase behave scores supports priorities data_type key
      ttl now (staleOf cres) st1

/-- A run of manager calls, one per listed wall-clock time, each call
threading the manager state (health table and cache) into the next. -/
def iterateTimes (step : ℚ → ExecState α → ExecState α) :
    List ℚ → ExecState α → ExecState α
  | [], st => st
  | t :: ts, st => iterateTimes step ts (step t st)

/-! ### Concrete instances used to witness the theorems -/

/-- The Fresh entry of the non-clobber scenario: payload 0 supplied by
provider `A` at time 0 with the `prices` TTL. -/
def entryA : CacheEntry ℕ :=
  { data := 0, provider := "A", timestamp := 0, cache_key := "K",
    data_type := "prices", ttl_seconds := 300 }

/-- The rank table of the non-clobber scenario: `A` ranks 5, `B`
ranks 3, every other provider ranks 8. -/
def scoresABC (q : String) : ℕ :=
  if q = "A" then 5 else if q = "B" then 3 else 8

/-- A health record with two accumulated failures, a closed breaker and
some mixed request history. -/
def healthTwoFails : ProviderHealth :=
  { failure_count := 2, total_requests := 7, successful_requests := 5 }

/-- A Stale cache entry of the degradation scenario: payload 7 supplied
by provider `P1` at time 0 with the `prices` TTL of 300 seconds; at
time 250 its age sits in the Stale band. -/
def entryStaleP1 : CacheEntry ℕ :=
  { data := 7, provider := "P1", timestamp := 0, cache_key := "K",
    data_type := "prices", ttl_seconds := 300 }

/-! ## Theorems -/

/-- After deleting a key, looking it up misses. -/
theorem lookupEntry_eraseKey (key : String) (c : Cache α) :
    lookupEntry key (eraseKey key c) = none := by
  induction c with
  | nil => rfl
  | cons kv rest ih =>
      by_cases h : kv.1 = key
      · simpa [eraseKey, lookupEntry, List.filter, h] using ih
      · have hbeq : (key == kv.1) = false := by
          simp [beq_iff_eq]
          exact fun he => h he.symm
        simpa [eraseKey, lookupEntry, List.filter, h, List.lookup, hbeq] using ih

/-- C5: for a cache entry with TTL `T`, the freshness state is Fresh
exactly when `age < 0.8 T`, Stale exactly when `0.8 T ≤ age < T`, and
Expired exactly when `age ≥ T`; and a lookup that finds an Expired entry
deletes it and reports a miss. -/
theorem freshness_boundaries_and_expiry_eviction
    (e : CacheEntry α) (now : ℚ) (hT : 0 ≤ e.ttl_seconds) :
    (e.status now = CacheEntryStatus.fresh ↔
      e.age now < e.ttl_seconds * (4 / 5)) ∧
    (e.status now = CacheEntryStatus.stale ↔
      e.ttl_seconds * (4 / 5) ≤ e.age now ∧ e.age now < e.ttl_seconds) ∧
    (e.status now = CacheEntryStatus.expired ↔ e.ttl_seconds ≤ e.age now) ∧
    (∀ c : Cache α, ∀ key : String, lookupEntry key c = some e →
      e.status now = CacheEntryStatus.expired →
      (cacheGet c key now).1 = none ∧
      lookupEntry key (cacheGet c key now).2 = none) := by
  have h45 : e.ttl_seconds * (4 / 5) ≤ e.ttl_seconds := by nlinarith
  refine ⟨?_, ?_, ?_, ?_⟩
  · unfold CacheEntry.status
    split_ifs with h1 h2 <;> simp_all
  · unfold CacheEntry.status
    split_ifs with h1 h2 <;> simp_all
  · unfold CacheEntry.status
    split_ifs with h1 h2 <;> simp_all
    linarith
  · intro c key hl hexp
    have hinvalid : e.is_valid now = false := by
      simp [CacheEntry.is_valid, hexp]
    constructor
    · simp [cacheGet, hl, hinvalid]
    · simp [cacheGet, hl, hinvalid, lookupEntry_eraseKey]

/-- Witness for C5 at a concrete entry: TTL 300 (the `prices` TTL),
created at time 0, looked at at age 250, which the boundaries place in
the Stale band. -/
theorem freshness_boundaries_witness :
    (({ data := 1, provider := "yahoo", timestamp := 0, cache_key := "K",
        data_type := "prices", ttl_seconds := 300 } : CacheEntry ℕ).status 250
        = CacheEntryStatus.stale ↔
      (300 : ℚ) * (4 / 5) ≤
          ({ data := 1, provider := "yahoo", timestamp := 0, cache_key := "K",
             data_type := "prices", ttl_seconds := 300 } : CacheEntry ℕ).age 250 ∧
        ({ data := 1, provider := "yahoo", timestamp := 0, cache_key := "K",
           data_type := "prices", ttl_seconds := 300 } : CacheEntry ℕ).age 250 < 300) :=
  (freshness_boundaries_and_expiry_eviction
    { data := 1, provider := "yahoo", timestamp := 0, cache_key := "K",
      data_type := "prices", ttl_seconds := 300 } 250 (by norm_num)).2.1

/-- C2: the cache write policy.  With no existing entry the write always
lands; against a Fresh entry it lands exactly when the incoming
provider's rank strictly exceeds the existing entry's provider rank and
is a no-op otherwise; against a non-Fresh (Stale or Expired) entry it
always lands. -/
theorem cache_set_write_policy (scores : String → ℕ) (c : Cache α)
    (key dt : String) (d : α) (p : String) (ttl now : ℚ) :
    (lookupEntry key c = none →
      cacheSet scores c key dt d p ttl now =
        insertEntry key
          { data := d, provider := p, timestamp := now, cache_key := key,
            data_type := dt, ttl_seconds := ttl } c) ∧
    (∀ e : CacheEntry α, lookupEntry key c = some e →
      (e.status now = CacheEntryStatus.fresh →
        (scores e.provider < scores p →
          cacheSet scores c key dt d p ttl now =
            insertEntry key
              { data := d, provider := p, timestamp := now, cache_key := key,
                data_type := dt, ttl_seconds := ttl } c) ∧
        (scores p ≤ scores e.provider →
          cacheSet scores c key dt d p ttl now = c)) ∧
      (e.status now ≠ CacheEntryStatus.fresh →
        cacheSet scores c key dt d p ttl now =
          insertEntry key
            { data := d, provider := p, timestamp := now, cache_key := key,
              data_type := dt, ttl_seconds := ttl } c)) := by
  constructor
  · intro hnone
    simp [cacheSet, hnone]
  · intro e he
    refine ⟨fun hfresh => ⟨fun hlt => ?_, fun hle => ?_⟩, fun hnf => ?_⟩
    · simp [cacheSet, he, hfresh, not_le.mpr hlt]
    · simp [cacheSet, he, hfresh, hle]
    · simp [cacheSet, he, hnf]

/-- Witness for C2, instantiating the claim's concrete scenario: a
Fresh entry from provider `A` of rank 5 under key `K`; a store from
provider `B` of rank 3 is a no-op and a store from provider `C` of
rank 8 overwrites. -/
theorem cache_set_write_policy_witness :
    (cacheSet scoresABC [("K", entryA)] "K" "prices" (1 : ℕ) "B" 300 10 =
      [("K", entryA)]) ∧
    (cacheSet scoresABC [("K", entryA)] "K" "prices" (1 : ℕ) "C" 300 10 =
      insertEntry "K"
        { data := 1, provider := "C", timestamp := 10, cache_key := "K",
          data_type := "prices", ttl_seconds := 300 } [("K", entryA)]) := by
  have hfresh : entryA.status 10 = CacheEntryStatus.fresh := by
    simp [entryA, CacheEntry.status, CacheEntry.age]
    norm_num
  have hlook : lookupEntry "K" [("K", entryA)] = some entryA := by
    simp [lookupEntry, List.lookup]
  constructor
  · exact (((cache_set_write_policy scoresABC [("K", entryA)] "K" "prices"
      (1 : ℕ) "B" 300 10).2 entryA hlook).1 hfresh).2 (by simp [scoresABC, entryA])
  · exact (((cache_set_write_policy scoresABC [("K", entryA)] "K" "prices"
      (1 : ℕ) "C" 300 10).2 entryA hlook).1 hfresh).1 (by simp [scoresABC, entryA])

/-- Sorting is invariant under permutation of the input, for the
keyword-argument order. -/
theorem sortKwargs_perm_eq (kw1 kw2 : List KwArg) (h : kw1.Perm kw2) :
    sortKwargs kw1 = sortKwargs kw2 :=
  List.eq_of_perm_of_sorted
    (((List.perm_insertionSort _ kw1).trans h).trans
      (List.perm_insertionSort _ kw2).symm)
    (List.sorted_insertionSort _ kw1)
    (List.sorted_insertionSort _ kw2)

/-- Sorting is invariant under permutation of the input, for the
line-items list. -/
theorem sortStrings_perm_eq (l1 l2 : List String) (h : l1.Perm l2) :
    List.insertionSort (fun a b => a ≤ b) l1 =
      List.insertionSort (fun a b => a ≤ b) l2 :=
  List.eq_of_perm_of_sorted
    (((List.perm_insertionSort _ l1).trans h).trans
      (List.perm_insertionSort _ l2).symm)
    (List.sorted_insertionSort _ l1)
    (List.sorted_insertionSort _ l2)

/-- C9: cache keys are stable.  The key derivation is a function of its
arguments (hence deterministic), supplying the keyword arguments in a
different order yields the identical key, and reordering the requested
line items yields the identical line-items key. -/
theorem cache_key_stability (dt : String) (args : List String)
    (kw1 kw2 : List KwArg) (ticker ed pd : String) (limit : ℕ)
    (li1 li2 : List String) (hkw : kw1.Perm kw2) (hli : li1.Perm li2) :
    generate_cache_key dt args kw1 = generate_cache_key dt args kw2 ∧
    line_items_cache_key ticker li1 ed pd limit =
      line_items_cache_key ticker li2 ed pd limit := by
  constructor
  · unfold generate_cache_key
    rw [sortKwargs_perm_eq kw1 kw2 hkw]
  · unfold line_items_cache_key
    rw [sortStrings_perm_eq li1 li2 hli]

/-- Witness for C9: swapping two keyword arguments and reversing a
two-element line-items list leave both keys unchanged. -/
theorem cache_key_stability_witness :
    generate_cache_key "prices" ["AAPL"]
        [toLex ("start_date", "2024-01-01"), toLex ("end_date", "2024-02-01")] =
      generate_cache_key "prices" ["AAPL"]
        [toLex ("end_date", "2024-02-01"), toLex ("start_date", "2024-01-01")] ∧
    line_items_cache_key "AAPL" ["revenue", "net_income"] "2024-02-01" "ttm" 10 =
      line_items_cache_key "AAPL" ["net_income", "revenue"] "2024-02-01" "ttm" 10 :=
  cache_key_stability "prices" ["AAPL"] _ _ "AAPL" "2024-02-01" "ttm" 10 _ _
    (List.Perm.swap _ _ _) (List.Perm.swap _ _ _)

/-- Recording a failure always advances the consecutive-failure counter
by exactly one (opening the circuit does not touch the counter). -/
theorem record_failure_count (h : ProviderHealth) (t : ℚ) :
    (record_failure h t).failure_count = h.failure_count + 1 ∧
    (record_failure h t).total_requests = h.total_requests + 1 ∧
    (record_failure h t).successful_requests = h.successful_requests := by
  simp only [record_failure, open_circuit]
  split_ifs <;> simp

/-- C10 (implicit frame effect): when no cooldown timestamp is set,
recording a success only bumps the total and successful request
counters; the failure counter, cooldown timestamp, healthy flag and
last-failure timestamp are untouched — so an intervening success does
not reset the failure counter, and a later failure still advances it. -/
theorem record_success_frame (h : ProviderHealth) (t : ℚ)
    (hc : h.circuit_open_until = none) :
    record_success h =
      { h with total_requests := h.total_requests + 1,
               successful_requests := h.successful_requests + 1 } ∧
    (record_success h).failure_count = h.failure_count ∧
    (record_success h).circuit_open_until = none ∧
    (record_success h).is_healthy = h.is_healthy ∧
    (record_success h).last_failure_time = h.last_failure_time ∧
    (record_failure (record_success h) t).failure_count = h.failure_count + 1 := by
  have hrs : record_success h =
      { h with total_requests := h.total_requests + 1,
               successful_requests := h.successful_requests + 1 } := by
    unfold record_success
    simp [hc]
  refine ⟨hrs, ?_, ?_, ?_, ?_, ?_⟩
  · rw [hrs]
  · rw [hrs]; exact hc
  · rw [hrs]
  · rw [hrs]
  · rw [hrs]
    simpa using (record_failure_count
      { h with total_requests := h.total_requests + 1,
               successful_requests := h.successful_requests + 1 } t).1

/-- Witness for C10: a health record with two accumulated failures and
a closed breaker; a success leaves the failure counter at 2 and the
next failure takes it to 3. -/
theorem record_success_frame_witness :
    (record_success healthTwoFails).failure_count = 2 ∧
    (record_failure (record_success healthTwoFails) 9).failure_count = 2 + 1 := by
  have hfull := record_success_frame healthTwoFails 9 rfl
  exact ⟨hfull.2.1, hfull.2.2.2.2.2⟩

/-- C1 (the recovery half of the circuit-breaker life cycle, evaluated
on the code's own success-counting formula): a fresh provider fails
three times at time 0, which opens the circuit until time 300.  At time
301 the cooldown has elapsed and the candidate filter readmits the
provider.  Two consecutive successes are then recorded — the
`success_threshold` of the claim — yet the breaker does not close: the
code's `consecutive_successes` is `successful_requests -
(total_requests - successful_requests)`, which is `2·2 - 5 = -1 < 2`
here, so the cooldown timestamp, the failure counter and the unhealthy
flag all survive, and the health snapshot still reports the provider
unhealthy. -/
theorem circuit_recovery_two_successes_do_not_close :
    (is_circuit_open
      (record_failure (record_failure (record_failure ProviderHealth.init 0) 0) 0)
      301 = false) ∧
    (record_success (record_success
        (record_failure (record_failure (record_failure ProviderHealth.init 0) 0) 0))
      = { is_healthy := false, failure_count := 3, last_failure_time := some 0,
          circuit_open_until := some 300, total_requests := 5,
          successful_requests := 2 }) ∧
    ((provider_health_status
        (record_success (record_success
          (record_failure (record_failure (record_failure ProviderHealth.init 0) 0) 0)))
        301).healthy = false) := by
  refine ⟨?_, ?_, ?_⟩
  · simp [record_failure, open_circuit, ProviderHealth.init, failure_threshold,
      circuit_timeout, is_circuit_open]
    norm_num
  · simp [record_failure, record_success, open_circuit, close_circuit,
      ProviderHealth.init, failure_threshold, circuit_timeout, success_threshold]
  · simp [record_failure, record_success, open_circuit, close_circuit,
      ProviderHealth.init, failure_threshold, circuit_timeout, success_threshold,
      provider_health_status]

/-- Below the failure threshold, a run of recorded failures leaves the
circuit closed and advances the failure counter one per failure. -/
theorem foldl_record_failure_below_threshold (ts : List ℚ) (h : ProviderHealth)
    (hc : h.circuit_open_until = none)
    (hlt : h.failure_count + ts.length < failure_threshold) :
    (ts.foldl record_failure h).circuit_open_until = none ∧
    (ts.foldl record_failure h).failure_count = h.failure_count + ts.length := by
  induction ts generalizing h with
  | nil => exact ⟨hc, by simp⟩
  | cons t ts ih =>
      simp only [List.length_cons] at hlt
      have hstep : record_failure h t =
          { h with total_requests := h.total_requests + 1,
                   failure_count := h.failure_count + 1,
                   last_failure_time := some t } := by
        simp only [record_failure]
        rw [if_neg]
        intro hcond
        have hge : failure_threshold ≤ h.failure_count + 1 := hcond.1
        omega
      have hc' : (record_failure h t).circuit_open_until = none := by
        rw [hstep]; exact hc
      have hfc' : (record_failure h t).failure_count = h.failure_count + 1 := by
        rw [hstep]
      have hlen : (record_failure h t).failure_count + ts.length
          < failure_threshold := by
        rw [hfc']; omega
      obtain ⟨h1, h2⟩ := ih (record_failure h t) hc' hlen
      refine ⟨by simpa [List.foldl_cons] using h1, ?_⟩
      rw [List.foldl_cons, h2, hfc', List.length_cons]
      omega

/-- C6: starting from a healthy record, fewer than `failure_threshold`
recorded failures leave the cooldown unset and the provider present in
every candidate-list build (given it supports the data type); the
failure that reaches the threshold sets `circuit_open_until =
now + cooldown`, clears the healthy flag, and excludes the provider from
every candidate-list build made while `now < circuit_open_until`. -/
theorem circuit_opens_at_failure_threshold (ts : List ℚ) (t u : ℚ)
    (priorities : List String) (pname : String) (supports : String → Bool)
    (healths : String → ProviderHealth) :
    (ts.length < failure_threshold →
      (ts.foldl record_failure ProviderHealth.init).circuit_open_until = none ∧
      (ts.foldl record_failure ProviderHealth.init).failure_count = ts.length ∧
      (healths pname = ts.foldl record_failure ProviderHealth.init →
        pname ∈ priorities → supports pname = true →
        pname ∈ get_available_providers priorities healths supports u)) ∧
    (ts.length + 1 = failure_threshold →
      (record_failure (ts.foldl record_failure ProviderHealth.init) t).circuit_open_until
          = some (t + circuit_timeout) ∧
      (record_failure (ts.foldl record_failure ProviderHealth.init) t).is_healthy
          = false ∧
      (u < t + circuit_timeout →
        healths pname = record_failure (ts.foldl record_failure ProviderHealth.init) t →
        pname ∉ get_available_providers priorities healths supports u)) := by
  constructor
  · intro hlt
    obtain ⟨hopen, hcount⟩ := foldl_record_failure_below_threshold ts
      ProviderHealth.init rfl (by simpa [ProviderHealth.init] using hlt)
    refine ⟨hopen, by simpa [ProviderHealth.init] using hcount, ?_⟩
    intro hh hmem hsup
    have hnotopen : is_circuit_open (healths pname) u = false := by
      rw [hh]
      simp [is_circuit_open, hopen]
    simp [get_available_providers, List.mem_filter, hmem, hnotopen, hsup]
  · intro hexact
    obtain ⟨hopen, hcount⟩ := foldl_record_failure_below_threshold ts
      ProviderHealth.init rfl
      (by simp [ProviderHealth.init]; omega)
    have hfc : (ts.foldl record_failure ProviderHealth.init).failure_count + 1
        = failure_threshold := by
      rw [hcount]
      simpa [ProviderHealth.init] using hexact
    have hstep : record_failure (ts.foldl record_failure ProviderHealth.init) t =
        open_circuit
          { ts.foldl record_failure ProviderHealth.init with
            total_requests := (ts.foldl record_failure ProviderHealth.init).total_requests + 1,
            failure_count := (ts.foldl record_failure ProviderHealth.init).failure_count + 1,
            last_failure_time := some t } t := by
      simp only [record_failure]
      rw [if_pos]
      exact ⟨by omega, hopen⟩
    refine ⟨by rw [hstep]; rfl, by rw [hstep]; rfl, ?_⟩
    intro hu hh
    have hopen' : is_circuit_open (healths pname) u = true := by
      rw [hh, hstep]
      simpa [is_circuit_open, open_circuit] using hu
    simp [get_available_providers, List.mem_filter, hopen']

/-- Witness for C6: two failures at times 0 and 1 leave the breaker
closed and the provider listed; the third failure at time 2 opens the
circuit until time 302 and a candidate-list build at time 100 excludes
the provider. -/
theorem circuit_opens_at_failure_threshold_witness :
    (([0, 1] : List ℚ).foldl record_failure ProviderHealth.init).circuit_open_until
        = none ∧
    "yahoo" ∈ get_available_providers prices_priorities
      (fun _ => ([0, 1] : List ℚ).foldl record_failure ProviderHealth.init)
      (fun _ => true) 100 ∧
    (record_failure (([0, 1] : List ℚ).foldl record_failure ProviderHealth.init)
        2).circuit_open_until = some (2 + circuit_timeout) ∧
    "yahoo" ∉ get_available_providers prices_priorities
      (fun _ => record_failure
        (([0, 1] : List ℚ).foldl record_failure ProviderHealth.init) 2)
      (fun _ => true) 100 := by
  have hfst := (circuit_opens_at_failure_threshold [0, 1] 2 100 prices_priorities
    "yahoo" (fun _ => true)
    (fun _ => ([0, 1] : List ℚ).foldl record_failure ProviderHealth.init)).1
    (by simp [failure_threshold])
  have hsnd := (circuit_opens_at_failure_threshold [0, 1] 2 100 prices_priorities
    "yahoo" (fun _ => true)
    (fun _ => record_failure
      (([0, 1] : List ℚ).foldl record_failure ProviderHealth.init) 2)).2
    (by simp [failure_threshold])
  refine ⟨hfst.1, ?_, hsnd.1, ?_⟩
  · exact hfst.2.2 rfl (by simp [prices_priorities]) rfl
  · exact hsnd.2.2 (by norm_num [circuit_timeout]) rfl

/-- A provider run in which every attempted candidate reports NotFound
leaves the manager state (health table and cache) untouched. -/
theorem tryProviders_notFound_state (behave : String → ProvResult α)
    (scores : String → ℕ) (dt key : String) (ttl now : ℚ)
    (cs : List String) (st : ExecState α) (le : Option ProvError)
    (hall : ∀ p ∈ cs, behave p = ProvResult.err ProvError.notFound) :
    (tryProviders behave scores dt key ttl now cs st le).2 = st := by
  induction cs generalizing le with
  | nil => rfl
  | cons c cs ih =>
      have hc := hall c (by simp)
      simp only [tryProviders, hc]
      exact ih (some ProvError.notFound) (fun p hp => hall p (by simp [hp]))

/-- When every provider reports NotFound, the fallback phase leaves the
health table untouched. -/
theorem fallbackPhase_notFound_healths (behave : String → ProvResult α)
    (scores : String → ℕ) (supports : String → Bool) (priorities : List String)
    (dt key : String) (ttl now : ℚ) (staleData : Option (α × String))
    (st1 : ExecState α) (hall : ∀ p, behave p = ProvResult.err ProvError.notFound) :
    (fallbackPhase behave scores supports priorities dt key ttl now
      staleData st1).2.healths = st1.healths := by
  unfold fallbackPhase
  rcases hgc : get_available_providers priorities st1.healths supports now with _ | ⟨c, cs⟩
  · cases staleData <;> simp
  · have hstate := tryProviders_notFound_state behave scores dt key ttl now
      (c :: cs) st1 none (fun p _ => hall p)
    rcases htp : tryProviders behave scores dt key ttl now (c :: cs) st1 none
      with ⟨res, st2⟩
    have hst2 : st2 = st1 := by rw [htp] at hstate; exact hstate
    cases res <;> cases staleData <;> simp [htp, hst2]

/-- One manager call in which every provider reports NotFound leaves the
health table untouched (the cache may still drop an expired entry). -/
theorem exec_notFound_healths (behave : String → ProvResult α)
    (scores : String → ℕ) (supports : String → Bool) (priorities : List String)
    (dt key : String) (ttl now : ℚ) (st : ExecState α)
    (hall : ∀ p, behave p = ProvResult.err ProvError.notFound) :
    (execute_with_fallback behave scores supports priorities dt key ttl now
      st).2.healths = st.healths := by
  unfold execute_with_fallback
  rcases hcg : (cacheGet st.cache key now).1 with _ | ⟨d, p, status⟩
  · simpa [hcg] using fallbackPhase_notFound_healths behave scores supports
      priorities dt key ttl now _ _ hall
  · cases status
    · simp [hcg]
    · simpa [hcg] using fallbackPhase_notFound_healths behave scores supports
        priorities dt key ttl now _ _ hall
    · simpa [hcg] using fallbackPhase_notFound_healths behave scores supports
        priorities dt key ttl now _ _ hall

/-- C7: a run of `N > failure_threshold` consecutive manager calls in
which every provider reports NotFound never changes any provider's
health record — in particular the failure counter never advances, the
breaker state is unchanged, and the circuit never opens. -/
theorem notfound_never_penalizes (behave : String → ProvResult α)
    (scores : String → ℕ) (supports : String → Bool) (priorities : List String)
    (dt key : String) (ttl : ℚ) (st : ExecState α) (ts : List ℚ) (N : ℕ)
    (pname : String) (u : ℚ)
    (hall : ∀ p, behave p = ProvResult.err ProvError.notFound)
    (_hlen : ts.length = N) (_hN : failure_threshold < N) :
    (iterateTimes
        (fun t s => (execute_with_fallback behave scores supports priorities
          dt key ttl t s).2) ts st).healths = st.healths ∧
    ((iterateTimes
        (fun t s => (execute_with_fallback behave scores supports priorities
          dt key ttl t s).2) ts st).healths pname).failure_count
      = ((st.healths pname)).failure_count ∧
    is_circuit_open
        ((iterateTimes
          (fun t s => (execute_with_fallback behave scores supports priorities
            dt key ttl t s).2) ts st).healths pname) u
      = is_circuit_open (st.healths pname) u := by
  have hmain : ∀ (l : List ℚ) (s : ExecState α),
      (iterateTimes
        (fun t s' => (execute_with_fallback behave scores supports priorities
          dt key ttl t s').2) l s).healths = s.healths := by
    intro l
    induction l with
    | nil => intro s; rfl
    | cons t l ih =>
        intro s
        rw [iterateTimes, ih]
        exact exec_notFound_healths behave scores supports priorities
          dt key ttl t s hall
  refine ⟨hmain ts st, ?_, ?_⟩ <;> rw [hmain ts st]

/-- Witness for C7: four calls (one more than the failure threshold) at
times 0, 1, 2, 3 against providers that all report NotFound leave the
initial health table exactly as it was. -/
theorem notfound_never_penalizes_witness :
    (iterateTimes
        (fun t s => (execute_with_fallback (α := ℕ)
          (fun _ => ProvResult.err ProvError.notFound) provider_scores
          (fun _ => true) prices_priorities "prices" "K" 300 t s).2)
        [0, 1, 2, 3] ⟨fun _ => ProviderHealth.init, []⟩).healths
      = (fun _ => ProviderHealth.init) ∧
    ((iterateTimes
        (fun t s => (execute_with_fallback (α := ℕ)
          (fun _ => ProvResult.err ProvError.notFound) provider_scores
          (fun _ => true) prices_priorities "prices" "K" 300 t s).2)
        [0, 1, 2, 3] ⟨fun _ => ProviderHealth.init, []⟩).healths "yahoo").failure_count
      = 0 := by
  have h := notfound_never_penalizes (α := ℕ)
    (fun _ => ProvResult.err ProvError.notFound) provider_scores
    (fun _ => true) prices_priorities "prices" "K" 300
    ⟨fun _ => ProviderHealth.init, []⟩ [0, 1, 2, 3] 4 "yahoo" 0
    (fun _ => rfl) rfl (by norm_num [failure_threshold])
  exact ⟨h.1, h.2.1⟩

/-- Recording a success always advances both request counters by
exactly one (closing the circuit does not touch them). -/
theorem record_success_count (h : ProviderHealth) :
    (record_success h).total_requests = h.total_requests + 1 ∧
    (record_success h).successful_requests = h.successful_requests + 1 := by
  simp only [record_success, close_circuit]
  cases hco : h.circuit_open_until
  · simp [hco]
  · simp only [hco]
    split_ifs <;> simp

/-- C8 counterexample: one call with a single candidate `P1` that
reports NotFound.  The attempt happened — the call exhausts the
candidate list and its error records NotFound as the last underlying
error — yet `P1`'s total-request count stays 0 instead of advancing
to 1 as the claim demands. -/
theorem attempt_accounting_notfound_counterexample :
    (execute_with_fallback (α := ℕ) (fun _ => ProvResult.err ProvError.notFound)
        provider_scores (fun _ => true) ["P1"] "prices" "K" 300 0
        ⟨fun _ => ProviderHealth.init, []⟩).1
      = Except.error (MgrError.allFailed (some ProvError.notFound)) ∧
    ((execute_with_fallback (α := ℕ) (fun _ => ProvResult.err ProvError.notFound)
        provider_scores (fun _ => true) ["P1"] "prices" "K" 300 0
        ⟨fun _ => ProviderHealth.init, []⟩).2.healths "P1").total_requests = 0 ∧
    ¬ ((execute_with_fallback (α := ℕ) (fun _ => ProvResult.err ProvError.notFound)
        provider_scores (fun _ => true) ["P1"] "prices" "K" 300 0
        ⟨fun _ => ProviderHealth.init, []⟩).2.healths "P1").total_requests
      = (ProviderHealth.init.total_requests + 1) := by
  refine ⟨?_, ?_, ?_⟩ <;>
    simp [execute_with_fallback, cacheGet, lookupEntry, fallbackPhase, staleOf,
      get_available_providers, is_circuit_open, ProviderHealth.init,
      tryProviders]

/-- C8 (amended): an attempt that succeeds advances the provider's
total-request and successful-request counts by exactly one; an attempt
that fails with RateLimited or a generic error advances the
total-request count by exactly one and leaves the successful-request
count unchanged; an attempt that ends in NotFound records nothing — the
whole manager state is unchanged. -/
theorem attempt_accounting (behave : String → ProvResult α)
    (scores : String → ℕ) (dt key : String) (ttl now : ℚ) (p : String)
    (st : ExecState α) (le : Option ProvError) (v : α) :
    (behave p = ProvResult.ok v →
      ((tryProviders behave scores dt key ttl now [p] st le).2.healths p).total_requests
          = (st.healths p).total_requests + 1 ∧
      ((tryProviders behave scores dt key ttl now [p] st le).2.healths p).successful_requests
          = (st.healths p).successful_requests + 1) ∧
    (behave p = ProvResult.err ProvError.rateLimited ∨
        behave p = ProvResult.err ProvError.generic →
      ((tryProviders behave scores dt key ttl now [p] st le).2.healths p).total_requests
          = (st.healths p).total_requests + 1 ∧
      ((tryProviders behave scores dt key ttl now [p] st le).2.healths p).successful_requests
          = (st.healths p).successful_requests) ∧
    (behave p = ProvResult.err ProvError.notFound →
      (tryProviders behave scores dt key ttl now [p] st le).2 = st) := by
  refine ⟨?_, ?_, ?_⟩
  · intro hb
    simp only [tryProviders, hb, updateHealth, Function.update_same]
    exact record_success_count (st.healths p)
  · rintro (hb | hb) <;>
      simp only [tryProviders, hb, updateHealth, Function.update_same] <;>
      exact ⟨(record_failure_count (st.healths p) now).2.1,
        (record_failure_count (st.healths p) now).2.2⟩
  · intro hb
    simp [tryProviders, hb]

/-- Witness for C8's amended statement: a successful attempt takes a
fresh record's counters from (0, 0) to (1, 1), a rate-limited attempt
takes them to (1, 0), and a NotFound attempt leaves the state alone. -/
theorem attempt_accounting_witness :
    (((tryProviders (α := ℕ) (fun _ => ProvResult.ok 42) provider_scores
        "prices" "K" 300 0 ["P1"] ⟨fun _ => ProviderHealth.init, []⟩ none).2.healths
        "P1").total_requests = 0 + 1) ∧
    (((tryProviders (α := ℕ) (fun _ => ProvResult.err ProvError.rateLimited)
        provider_scores "prices" "K" 300 0 ["P1"]
        ⟨fun _ => ProviderHealth.init, []⟩ none).2.healths
        "P1").successful_requests = 0) ∧
    ((tryProviders (α := ℕ) (fun _ => ProvResult.err ProvError.notFound)
        provider_scores "prices" "K" 300 0 ["P1"]
        ⟨fun _ => ProviderHealth.init, []⟩ none).2
      = ⟨fun _ => ProviderHealth.init, []⟩) := by
  refine ⟨?_, ?_, ?_⟩
  · exact ((attempt_accounting (fun _ => ProvResult.ok 42) provider_scores
      "prices" "K" 300 0 "P1" ⟨fun _ => ProviderHealth.init, []⟩ none 42).1 rfl).1
  · exact ((attempt_accounting (fun _ => ProvResult.err ProvError.rateLimited)
      provider_scores "prices" "K" 300 0 "P1" ⟨fun _ => ProviderHealth.init, []⟩
      none 42).2.1 (Or.inl rfl)).2
  · exact (attempt_accounting (fun _ => ProvResult.err ProvError.notFound)
      provider_scores "prices" "K" 300 0 "P1" ⟨fun _ => ProviderHealth.init, []⟩
      none 42).2.2 rfl

/-- C3: with priority list `[P1, P2, P3]`, an empty cache, all circuits
closed and all capabilities declared, if `P1` raises RateLimited and
`P2` succeeds with `v`, the call returns `(v, "P2")`, `P1`'s record after
the call is exactly one recorded failure on top of its previous state —
its failure counter advanced by exactly 1 — and the whole outcome is
identical for every behaviour that agrees on `P1` and `P2`, so `P3` is
never consulted. -/
theorem fallback_ordering (behave behave2 : String → ProvResult α)
    (scores : String → ℕ) (supports : String → Bool)
    (hs : String → ProviderHealth) (dt key : String) (ttl now : ℚ) (v : α)
    (h1 : behave "P1" = ProvResult.err ProvError.rateLimited)
    (h2 : behave "P2" = ProvResult.ok v)
    (hsup : ∀ p, supports p = true)
    (hopen : ∀ p, is_circuit_open (hs p) now = false)
    (hb1 : behave2 "P1" = behave "P1") (hb2 : behave2 "P2" = behave "P2") :
    (execute_with_fallback behave scores supports ["P1", "P2", "P3"] dt key ttl
        now ⟨hs, []⟩).1 = Except.ok (v, "P2") ∧
    (execute_with_fallback behave scores supports ["P1", "P2", "P3"] dt key ttl
        now ⟨hs, []⟩).2.healths "P1" = record_failure (hs "P1") now ∧
    ((execute_with_fallback behave scores supports ["P1", "P2", "P3"] dt key ttl
        now ⟨hs, []⟩).2.healths "P1").failure_count
      = (hs "P1").failure_count + 1 ∧
    execute_with_fallback behave2 scores supports ["P1", "P2", "P3"] dt key ttl
        now ⟨hs, []⟩
      = execute_with_fallback behave scores supports ["P1", "P2", "P3"] dt key
        ttl now ⟨hs, []⟩ := by
  have hb1' : behave2 "P1" = ProvResult.err ProvError.rateLimited := hb1.trans h1
  have hb2' : behave2 "P2" = ProvResult.ok v := hb2.trans h2
  have hexec : ∀ b : String → ProvResult α,
      b "P1" = ProvResult.err ProvError.rateLimited → b "P2" = ProvResult.ok v →
      execute_with_fallback b scores supports ["P1", "P2", "P3"] dt key ttl now
        ⟨hs, []⟩
        = (Except.ok (v, "P2"),
           { healths := updateHealth
               (updateHealth hs "P1" (fun h => record_failure h now)) "P2"
               record_success,
             cache := cacheSet scores [] key dt v "P2" ttl now }) := by
    intro b hbb1 hbb2
    unfold execute_with_fallback
    simp [cacheGet, lookupEntry, fallbackPhase, staleOf, get_available_providers,
      hopen, hsup, tryProviders, hbb1, hbb2, updateHealth]
  have hP1 : (execute_with_fallback behave scores supports ["P1", "P2", "P3"]
      dt key ttl now ⟨hs, []⟩).2.healths "P1" = record_failure (hs "P1") now := by
    rw [hexec behave h1 h2]
    simp only [updateHealth]
    rw [Function.update_noteq (by decide), Function.update_same]
  refine ⟨by rw [hexec behave h1 h2], hP1, ?_, ?_⟩
  · rw [hP1]
    exact (record_failure_count (hs "P1") now).1
  · rw [hexec behave2 hb1' hb2', hexec behave h1 h2]

/-- Witness for C3: concrete behaviours over a fresh health table.  The
second behaviour differs from the first only at `P3`, and the outcome —
result `(42, "P2")` and `P1`'s counter at 1 — is the same. -/
theorem fallback_ordering_witness :
    (execute_with_fallback (α := ℕ)
        (fun p => if p = "P1" then ProvResult.err ProvError.rateLimited
          else if p = "P2" then ProvResult.ok 42 else ProvResult.err ProvError.generic)
        provider_scores (fun _ => true) ["P1", "P2", "P3"] "prices" "K" 300 0
        ⟨fun _ => ProviderHealth.init, []⟩).1 = Except.ok (42, "P2") ∧
    ((execute_with_fallback (α := ℕ)
        (fun p => if p = "P1" then ProvResult.err ProvError.rateLimited
          else if p = "P2" then ProvResult.ok 42 else ProvResult.err ProvError.generic)
        provider_scores (fun _ => true) ["P1", "P2", "P3"] "prices" "K" 300 0
        ⟨fun _ => ProviderHealth.init, []⟩).2.healths "P1").failure_count = 0 + 1 ∧
    execute_with_fallback (α := ℕ)
        (fun p => if p = "P1" then ProvResult.err ProvError.rateLimited
          else if p = "P2" then ProvResult.ok 42 else ProvResult.ok 7)
        provider_scores (fun _ => true) ["P1", "P2", "P3"] "prices" "K" 300 0
        ⟨fun _ => ProviderHealth.init, []⟩
      = execute_with_fallback (α := ℕ)
        (fun p => if p = "P1" then ProvResult.err ProvError.rateLimited
          else if p = "P2" then ProvResult.ok 42 else ProvResult.err ProvError.generic)
        provider_scores (fun _ => true) ["P1", "P2", "P3"] "prices" "K" 300 0
        ⟨fun _ => ProviderHealth.init, []⟩ := by
  have h := fallback_ordering (α := ℕ)
    (fun p => if p = "P1" then ProvResult.err ProvError.rateLimited
      else if p = "P2" then ProvResult.ok 42 else ProvResult.err ProvError.generic)
    (fun p => if p = "P1" then ProvResult.err ProvError.rateLimited
      else if p = "P2" then ProvResult.ok 42 else ProvResult.ok 7)
    provider_scores (fun _ => true) (fun _ => ProviderHealth.init)
    "prices" "K" 300 0 42 rfl rfl (fun _ => rfl) (fun _ => rfl) rfl rfl
  exact ⟨h.1, h.2.2.1, h.2.2.2⟩

/-- A nonempty provider run in which every candidate raises a generic
error exhausts with the last error recorded as Generic. -/
theorem tryProviders_all_generic (behave : String → ProvResult α)
    (scores : String → ℕ) (dt key : String) (ttl now : ℚ)
    (cs : List String) (st : ExecState α) (le : Option ProvError)
    (hne : cs ≠ [])
    (hall : ∀ p ∈ cs, behave p = ProvResult.err ProvError.generic) :
    (tryProviders behave scores dt key ttl now cs st le).1
      = Except.error (some ProvError.generic) := by
  induction cs generalizing st le with
  | nil => exact absurd rfl hne
  | cons c cs ih =>
      have hc := hall c (by simp)
      by_cases hcs : cs = []
      · subst hcs
        simp [tryProviders, hc]
      · simp only [tryProviders, hc]
        exact ih _ _ hcs (fun p hp => hall p (by simp [hp]))

/-- C4: when a Stale cache entry `(d, pn)` exists for the key, a call
whose candidate list is empty, or whose candidates all fail with
generic errors, returns `(d, pn)` without raising; when there is no
cache entry for the key, an empty candidate list raises the
"no providers available" manager error, and full exhaustion raises the
manager error that carries the last underlying provider error. -/
theorem stale_fallback_and_total_exhaustion (behave : String → ProvResult α)
    (scores : String → ℕ) (supports : String → Bool) (priorities : List String)
    (dt key : String) (ttl now : ℚ) (st : ExecState α) (d : α) (pn : String) :
    ((cacheGet st.cache key now).1 = some (d, pn, CacheEntryStatus.stale) →
      (get_available_providers priorities st.healths supports now = [] →
        (execute_with_fallback behave scores supports priorities dt key ttl now
          st).1 = Except.ok (d, pn)) ∧
      (get_available_providers priorities st.healths supports now ≠ [] →
        (∀ p ∈ get_available_providers priorities st.healths supports now,
          behave p = ProvResult.err ProvError.generic) →
        (execute_with_fallback behave scores supports priorities dt key ttl now
          st).1 = Except.ok (d, pn))) ∧
    ((cacheGet st.cache key now).1 = none →
      (get_available_providers priorities st.healths supports now = [] →
        (execute_with_fallback behave scores supports priorities dt key ttl now
          st).1 = Except.error MgrError.noProviders) ∧
      (get_available_providers priorities st.healths supports now ≠ [] →
        (∀ p ∈ get_available_providers priorities st.healths supports now,
          behave p = ProvResult.err ProvError.generic) →
        (execute_with_fallback behave scores supports priorities dt key ttl now
          st).1 = Except.error (MgrError.allFailed (some ProvError.generic)))) := by
  constructor
  · intro hcache
    constructor
    · intro hempty
      unfold execute_with_fallback
      simp [hcache, fallbackPhase, staleOf, hempty]
    · intro hne hall
      unfold execute_with_fallback
      rcases hgc : get_available_providers priorities st.healths supports now
        with _ | ⟨c, cs⟩
      · exact absurd hgc hne
      · rw [hgc] at hall
        rcases htp : tryProviders behave scores dt key ttl now (c :: cs)
          { healths := st.healths, cache := (cacheGet st.cache key now).2 } none
          with ⟨res, st2⟩
        have hres := tryProviders_all_generic behave scores dt key ttl now
          (c :: cs) { healths := st.healths, cache := (cacheGet st.cache key now).2 }
          none (by simp) hall
        rw [htp] at hres
        subst hres
        simp [hcache, fallbackPhase, staleOf, hgc, htp]
  · intro hcache
    constructor
    · intro hempty
      unfold execute_with_fallback
      simp [hcache, fallbackPhase, staleOf, hempty]
    · intro hne hall
      unfold execute_with_fallback
      rcases hgc : get_available_providers priorities st.healths supports now
        with _ | ⟨c, cs⟩
      · exact absurd hgc hne
      · rw [hgc] at hall
        rcases htp : tryProviders behave scores dt key ttl now (c :: cs)
          { healths := st.healths, cache := (cacheGet st.cache key now).2 } none
          with ⟨res, st2⟩
        have hres := tryProviders_all_generic behave scores dt key ttl now
          (c :: cs) { healths := st.healths, cache := (cacheGet st.cache key now).2 }
          none (by simp) hall
        rw [htp] at hres
        subst hres
        simp [hcache, fallbackPhase, staleOf, hgc, htp]

/-- Witness for C4: a cache holding the Stale entry of `entryStaleP1`
under key `K` at time 250, with a single all-failing candidate `X`,
returns the stale payload `(7, "P1")`; with an empty cache the same
call raises the exhaustion error carrying the generic last error, and
with an empty priority list it raises the no-providers error. -/
theorem stale_fallback_and_total_exhaustion_witness :
    (execute_with_fallback (α := ℕ) (fun _ => ProvResult.err ProvError.generic)
        provider_scores (fun _ => true) ["X"] "prices" "K" 300 250
        ⟨fun _ => ProviderHealth.init, [("K", entryStaleP1)]⟩).1
      = Except.ok (7, "P1") ∧
    (execute_with_fallback (α := ℕ) (fun _ => ProvResult.err ProvError.generic)
        provider_scores (fun _ => true) ["X"] "prices" "K" 300 250
        ⟨fun _ => ProviderHealth.init, []⟩).1
      = Except.error (MgrError.allFailed (some ProvError.generic)) ∧
    (execute_with_fallback (α := ℕ) (fun _ => ProvResult.err ProvError.generic)
        provider_scores (fun _ => true) [] "prices" "K" 300 250
        ⟨fun _ => ProviderHealth.init, []⟩).1
      = Except.error MgrError.noProviders := by
  have hstale : (cacheGet [("K", entryStaleP1)] "K" (250 : ℚ)).1
      = some ((7 : ℕ), "P1", CacheEntryStatus.stale) := by
    norm_num [cacheGet, lookupEntry, List.lookup, entryStaleP1,
      CacheEntry.is_valid, CacheEntry.status, CacheEntry.age]
    rfl
  have hcand : get_available_providers ["X"]
      (fun _ => ProviderHealth.init) (fun _ => true) (250 : ℚ) = ["X"] := by
    simp [get_available_providers, is_circuit_open, ProviderHealth.init]
  refine ⟨?_, ?_, ?_⟩
  · exact ((stale_fallback_and_total_exhaustion (α := ℕ)
      (fun _ => ProvResult.err ProvError.generic) provider_scores
      (fun _ => true) ["X"] "prices" "K" 300 250
      ⟨fun _ => ProviderHealth.init, [("K", entryStaleP1)]⟩ 7 "P1").1 hstale).2
      (by rw [hcand]; simp) (by rw [hcand]; intro p hp; rfl)
  · exact ((stale_fallback_and_total_exhaustion (α := ℕ)
      (fun _ => ProvResult.err ProvError.generic) provider_scores
      (fun _ => true) ["X"] "prices" "K" 300 250
      ⟨fun _ => ProviderHealth.init, []⟩ 7 "P1").2 rfl).2
      (by rw [hcand]; simp) (by rw [hcand]; intro p hp; rfl)
  · exact ((stale_fallback_and_total_exhaustion (α := ℕ)
      (fun _ => ProvResult.err ProvError.generic) provider_scores
      (fun _ => true) [] "prices" "K" 300 250
      ⟨fun _ => ProviderHealth.init, []⟩ 7 "P1").2 rfl).1 rfl

end HedgeFund
